import Mathlib

/-!
Verification of the Tracker Integration & Statistics Synchronization subsystem
of the torrust-index backend (src/tracker/service.rs and the statistics
importer), as a shallow embedding in Lean.

Effectful Rust code is embedded as pure functions over explicit outcomes of
the external collaborators (HTTP responses from the tracker admin API, the
Database lookups), with an explicit effect log where a claim counts calls.
-/

namespace Torrust

/-- ServiceError variants used by the tracker subsystem (crate::errors::ServiceError).
`databaseError` stands for the error a failing `Database::add_tracker_key` call
propagates through the `?` operator after `From` conversion. -/
inductive ServiceError where
  | trackerOffline
  | whitelistingError
  | torrentNotFound
  | internalServerError
  | databaseError
deriving Repr, DecidableEq

/-- TrackerKey (crate::models::tracker_key::TrackerKey): per-user announce
credential with expiry timestamp. The defining module is not among the given
sources; the shape `{ key, valid_until }` is fixed by the spec data model. -/
structure TrackerKey where
  key : String
  valid_until : Int
deriving Repr, DecidableEq

/-- PeerId, from src/tracker/service.rs. -/
structure PeerId where
  id : Option String
  client : Option String
deriving Repr, DecidableEq

/-- Peer, from src/tracker/service.rs: every field optional. -/
structure Peer where
  peer_id : Option PeerId
  peer_addr : Option String
  updated : Option Int
  uploaded : Option Int
  downloaded : Option Int
  left : Option Int
  event : Option String
deriving Repr, DecidableEq

/-- TorrentInfo, from src/tracker/service.rs. -/
structure TorrentInfo where
  info_hash : String
  seeders : Int
  completed : Int
  leechers : Int
  peers : List Peer
deriving Repr, DecidableEq

/-- An HTTP response from the tracker admin API as the service observes it:
a status code, and the result of `response.text()` (which can itself fail,
modelled as `Except Unit String`). -/
structure Response where
  status : Nat
  text : Except Unit String
deriving Repr

/-- hyper StatusCode is_success: the 2xx range. -/
def Response.is_success (r : Response) : Bool :=
  200 ≤ r.status && r.status < 300

/-- Service::whitelist_info_hash, from src/tracker/service.rs lines 71-84.
`tracker_whitelist info_hash` is the outcome of
`api_client.whitelist_torrent(&info_hash)`: `.error` is a transport failure. -/
def whitelist_info_hash (tracker_whitelist : String → Except Unit Response)
    (info_hash : String) : Except ServiceError Unit :=
  match tracker_whitelist info_hash with
  | .ok response =>
      if response.is_success then .ok () else .error .whitelistingError
  | .error _ => .error .trackerOffline

/-- Service::remove_info_hash_from_whitelist, from src/tracker/service.rs
lines 92-105. Both the transport-failure arm and the non-2xx arm return
`InternalServerError` in the source. -/
def remove_info_hash_from_whitelist (tracker_remove : String → Except Unit Response)
    (info_hash : String) : Except ServiceError Unit :=
  match tracker_remove info_hash with
  | .ok response =>
      if response.is_success then .ok () else .error .internalServerError
  | .error _ => .error .internalServerError

/-- Service::get_torrent_info, from src/tracker/service.rs lines 136-167.
`tracker_get info_hash` is the outcome of `api_client.get_torrent_info`;
`decode` is `serde_json::from_str::<TorrentInfo>` (an external parser, passed
as an oracle). The source checks status 404 first, then reads the body, then
the plaintext sentinel, then decodes. -/
def get_torrent_info (tracker_get : String → Except Unit Response)
    (decode : String → Option TorrentInfo)
    (info_hash : String) : Except ServiceError TorrentInfo :=
  match tracker_get info_hash with
  | .error _ => .error .internalServerError
  | .ok response =>
      if response.status = 404 then .error .torrentNotFound
      else
        match response.text with
        | .ok body =>
            if body = "torrent not known" then .error .torrentNotFound
            else
              match decode body with
              | some torrent_info => .ok torrent_info
              | none => .error .internalServerError
        | .error _ => .error .internalServerError

/-- Observable calls made by the key-lifecycle path of the service, recorded
in order, so that claims about how often `issue_key` is invoked and what is
persisted can be stated. -/
inductive Effect where
  | getUserTrackerKey (user_id : Int)
  | issueKey (ttl : Nat)
  | addTrackerKey (user_id : Int) (k : TrackerKey)
deriving Repr, DecidableEq

/-- Whether an effect is a key-issuance HTTP call to the tracker. -/
def Effect.isIssueKey : Effect → Bool
  | .issueKey _ => true
  | _ => false

/-- Outcomes of the external collaborators for one key-lifecycle call:
the Database key cache, and the three steps of `retrieve_new_tracker_key`
(transport outcome of the issuance POST, JSON decode of its body as
TrackerKey, and the Database insert). -/
structure Env where
  get_user_tracker_key : Int → Option TrackerKey
  issue_key_transport : Except Unit Unit
  issue_key_decode : Option TrackerKey
  add_tracker_key_result : Except ServiceError Unit

/-- Configuration held by Service (src/tracker/service.rs lines 40-45):
the announce base URL and the key TTL. -/
structure Service where
  tracker_url : String
  token_valid_seconds : Nat

/-- Service::announce_url_with_key, from src/tracker/service.rs lines
171-173: `format!("\x7b\x7d/\x7b\x7d", self.tracker_url, tracker_key.key)`. -/
def Service.announce_url_with_key (s : Service) (tracker_key : TrackerKey) : String :=
  s.tracker_url ++ "/" ++ tracker_key.key

/-- Service::retrieve_new_tracker_key, from src/tracker/service.rs lines
177-196: issue a key from the tracker, decode it, persist it tied to
`user_id`, and return it; each fallible step maps its failure as in the
source. The effect log records the issuance call and the Database insert. -/
def Service.retrieve_new_tracker_key (s : Service) (env : Env) (user_id : Int) :
    Except ServiceError TrackerKey × List Effect :=
  match env.issue_key_transport with
  | .error _ => (.error .internalServerError, [.issueKey s.token_valid_seconds])
  | .ok _ =>
      match env.issue_key_decode with
      | none => (.error .internalServerError, [.issueKey s.token_valid_seconds])
      | some tracker_key =>
          match env.add_tracker_key_result with
          | .error e =>
              (.error e, [.issueKey s.token_valid_seconds, .addTrackerKey user_id tracker_key])
          | .ok _ =>
              (.ok tracker_key, [.issueKey s.token_valid_seconds, .addTrackerKey user_id tracker_key])

/-- Service::get_personal_announce_url, from src/tracker/service.rs lines
118-128: look up the cached key; if present use it as-is (no expiry check in
the source), otherwise issue, persist and use a new one, mapping any
issuance failure to TrackerOffline. -/
def Service.get_personal_announce_url (s : Service) (env : Env) (user_id : Int) :
    Except ServiceError String × List Effect :=
  match env.get_user_tracker_key user_id with
  | some v => (.ok (s.announce_url_with_key v), [.getUserTrackerKey user_id])
  | none =>
      let r := s.retrieve_new_tracker_key env user_id
      match r.1 with
      | .ok v => (.ok (s.announce_url_with_key v), .getUserTrackerKey user_id :: r.2)
      | .error _ => (.error .trackerOffline, .getUserTrackerKey user_id :: r.2)

/-- Modelled from the spec: the per-torrent outcome a tracker lookup can have
during an import pass. The importer implementation (`run_importer` in
`console::commands::import_tracker_statistics`) is not among the given
sources; only its binary entrypoint src/bin/importer.rs is. Spec section 4.3:
success carries fresh counts, `TorrentNotFound` is a skip, anything else is a
recorded per-item failure. -/
inductive LookupOutcome where
  | found (seeders leechers completed : Int)
  | notFoundOnTracker
  | failedLookup
deriving Repr, DecidableEq

/-- Modelled from the spec: the stored seeder/leecher/completed counts of one
torrent, as written by `Database::update_torrent_stats`. -/
structure TorrentStats where
  seeders : Int
  leechers : Int
  completed : Int
deriving Repr, DecidableEq

/-- Modelled from the spec: the aggregate batch summary
`\x7battempted, updated, skipped, failed\x7d` of one import pass. -/
structure Summary where
  attempted : Nat
  updated : Nat
  skipped : Nat
  failed : Nat
deriving Repr, DecidableEq

/-- Whether a lookup outcome is a success carrying fresh counts. -/
def LookupOutcome.isFound : LookupOutcome → Bool
  | .found _ _ _ => true
  | _ => false

/-- Modelled from the spec: one import pass of the StatisticsImporter
(spec section 4.3), whose implementation is not among the given sources.
It walks the enumerated catalog, and for each info-hash consults the tracker
lookup: on success it writes the fresh counts for that torrent to the
Database and counts it updated; on not-found it leaves the stored counts
alone and counts it skipped; on any other error it leaves the stored counts
alone, counts it failed, and continues. It returns the final Database state
and the aggregate summary. -/
def import_pass (lookup : String → LookupOutcome) (hashes : List String)
    (db : String → Option TorrentStats) : (String → Option TorrentStats) × Summary :=
  match hashes with
  | [] => (db, ⟨0, 0, 0, 0⟩)
  | h :: rest =>
      match lookup h with
      | .found s l c =>
          let r := import_pass lookup rest (fun x => if x = h then some ⟨s, l, c⟩ else db x)
          (r.1, ⟨r.2.attempted + 1, r.2.updated + 1, r.2.skipped, r.2.failed⟩)
      | .notFoundOnTracker =>
          let r := import_pass lookup rest db
          (r.1, ⟨r.2.attempted + 1, r.2.updated, r.2.skipped + 1, r.2.failed⟩)
      | .failedLookup =>
          let r := import_pass lookup rest db
          (r.1, ⟨r.2.attempted + 1, r.2.updated, r.2.skipped, r.2.failed + 1⟩)

/-- Modelled from the spec: the scheduling state of one import pass under the
bounded-concurrency policy of spec sections 4.3 and 5 — how many catalog
items are still pending, how many tracker lookups are in flight, and how many
have finished. -/
structure ImporterState where
  pending : Nat
  inflight : Nat
  done : Nat
deriving Repr, DecidableEq

/-- Modelled from the spec: the semaphore-gated fan-out of the importer
(spec sections 4.3 and 5), whose implementation is not among the given
sources. A worker may start a lookup only when a permit is free (fewer than
`K` lookups in flight); finishing a lookup releases its permit. -/
inductive ImporterStep (K : Nat) : ImporterState → ImporterState → Prop
  | start {p f d : Nat} : 0 < p → f < K →
      ImporterStep K ⟨p, f, d⟩ ⟨p - 1, f + 1, d⟩
  | finish {p f d : Nat} : 0 < f →
      ImporterStep K ⟨p, f, d⟩ ⟨p, f - 1, d + 1⟩

/-- States reachable during one import pass with concurrency limit `K` over a
catalog of `N` torrents, starting with everything pending and nothing in
flight. -/
inductive ImporterReachable (K N : Nat) : ImporterState → Prop
  | init : ImporterReachable K N ⟨N, 0, 0⟩
  | step {s t : ImporterState} : ImporterReachable K N s → ImporterStep K s t →
      ImporterReachable K N t

/-- C1: if the Database lookup returns a cached TrackerKey for the user, then
get_personal_announce_url returns Ok with the string tracker_url ++ "/" ++ key
of the cached key, and its effect log contains no key-issuance call. -/
theorem get_personal_announce_url_cached_key_reused (s : Service) (env : Env)
    (user_id : Int) (k : TrackerKey)
    (h : env.get_user_tracker_key user_id = some k) :
    (s.get_personal_announce_url env user_id).1 = .ok (s.tracker_url ++ "/" ++ k.key) ∧
    ((s.get_personal_announce_url env user_id).2.countP Effect.isIssueKey) = 0 := by
  constructor
  · simp [Service.get_personal_announce_url, h, Service.announce_url_with_key]
  · simp [Service.get_personal_announce_url, h, List.countP_cons, Effect.isIssueKey]

def envC1 : Env :=
  ⟨fun u => if u = 7 then some ⟨"alpha", 100⟩ else none, .ok (), none, .ok ()⟩

def serviceC1 : Service := ⟨"https://tracker:7070", 120⟩

/-- Witness for C1 at a concrete environment with a cached key. -/
theorem get_personal_announce_url_cached_key_reused_witness :
    (serviceC1.get_personal_announce_url envC1 7).1 = .ok ("https://tracker:7070" ++ "/" ++ "alpha") ∧
    ((serviceC1.get_personal_announce_url envC1 7).2.countP Effect.isIssueKey) = 0 :=
  get_personal_announce_url_cached_key_reused serviceC1 envC1 7 ⟨"alpha", 100⟩ rfl

/-- C2: if the Database lookup returns no cached key and key issuance, decoding
and persistence all succeed, then get_personal_announce_url makes exactly one
key-issuance call, records the persistence of the new key tied to the user id,
and returns Ok with tracker_url ++ "/" ++ key of the new key. -/
theorem get_personal_announce_url_issues_once (s : Service) (env : Env)
    (user_id : Int) (k : TrackerKey)
    (hc : env.get_user_tracker_key user_id = none)
    (ht : env.issue_key_transport = .ok ())
    (hd : env.issue_key_decode = some k)
    (ha : env.add_tracker_key_result = .ok ()) :
    (s.get_personal_announce_url env user_id).1 = .ok (s.tracker_url ++ "/" ++ k.key) ∧
    ((s.get_personal_announce_url env user_id).2.countP Effect.isIssueKey) = 1 ∧
    Effect.addTrackerKey user_id k ∈ (s.get_personal_announce_url env user_id).2 := by
  refine ⟨?_, ?_, ?_⟩ <;>
    simp [Service.get_personal_announce_url, Service.retrieve_new_tracker_key,
      hc, ht, hd, ha, Service.announce_url_with_key, List.countP_cons, Effect.isIssueKey]

def envC2 : Env := ⟨fun _ => none, .ok (), some ⟨"fresh", 999⟩, .ok ()⟩

def serviceC2 : Service := ⟨"https://tracker:7070", 120⟩

/-- Witness for C2 at a concrete environment with no cached key and a
successful issuance path. -/
theorem get_personal_announce_url_issues_once_witness :
    (serviceC2.get_personal_announce_url envC2 9).1 = .ok ("https://tracker:7070" ++ "/" ++ "fresh") ∧
    ((serviceC2.get_personal_announce_url envC2 9).2.countP Effect.isIssueKey) = 1 ∧
    Effect.addTrackerKey 9 ⟨"fresh", 999⟩ ∈ (serviceC2.get_personal_announce_url envC2 9).2 :=
  get_personal_announce_url_issues_once serviceC2 envC2 9 ⟨"fresh", 999⟩ rfl rfl rfl rfl

def envC4 : Env :=
  ⟨fun _ => some ⟨"expiredkey", 0⟩, .error (), none, .error .databaseError⟩

def serviceC4 : Service := ⟨"udp://tracker:6969", 60⟩

/-- C4 evidence: the Database returns a cached key whose valid_until (0) lies
in the past of any positive current time, and get_personal_announce_url still
serves it unchanged — the cache-read path of the source performs no expiry
check, although the function's own doc comment promises reissuance for a user
without a non-expired key. -/
theorem expired_cached_key_is_served :
    envC4.get_user_tracker_key 1 = some ⟨"expiredkey", 0⟩ ∧
    (TrackerKey.mk "expiredkey" 0).valid_until < 1 ∧
    (serviceC4.get_personal_announce_url envC4 1).1 =
      .ok ("udp://tracker:6969" ++ "/" ++ "expiredkey") :=
  ⟨rfl, by decide, rfl⟩

/-- C3: a tracker response of HTTP 200 whose body is exactly the plaintext
sentinel "torrent not known" makes get_torrent_info return TorrentNotFound,
the very same result as an actual HTTP 404 response. -/
theorem get_torrent_info_sentinel_normalized (t200 t404 : String → Except Unit Response)
    (decode : String → Option TorrentInfo) (h1 h2 : String) (r200 r404 : Response)
    (hg : t200 h1 = .ok r200) (hs : r200.status = 200)
    (hb : r200.text = .ok "torrent not known")
    (hg4 : t404 h2 = .ok r404) (hs4 : r404.status = 404) :
    get_torrent_info t200 decode h1 = .error .torrentNotFound ∧
    get_torrent_info t404 decode h2 = .error .torrentNotFound ∧
    get_torrent_info t200 decode h1 = get_torrent_info t404 decode h2 := by
  have e1 : get_torrent_info t200 decode h1 = .error .torrentNotFound := by
    simp [get_torrent_info, hg, hs, hb]
  have e2 : get_torrent_info t404 decode h2 = .error .torrentNotFound := by
    simp [get_torrent_info, hg4, hs4]
  exact ⟨e1, e2, e1.trans e2.symm⟩

def t200C3 : String → Except Unit Response := fun _ => .ok ⟨200, .ok "torrent not known"⟩

def t404C3 : String → Except Unit Response := fun _ => .ok ⟨404, .ok ""⟩

def decodeNone : String → Option TorrentInfo := fun _ => none

/-- Witness for C3 at concrete responses. -/
theorem get_torrent_info_sentinel_normalized_witness :
    get_torrent_info t200C3 decodeNone "abc" = .error .torrentNotFound ∧
    get_torrent_info t404C3 decodeNone "abc" = .error .torrentNotFound ∧
    get_torrent_info t200C3 decodeNone "abc" = get_torrent_info t404C3 decodeNone "abc" :=
  get_torrent_info_sentinel_normalized t200C3 t404C3 decodeNone "abc" "abc"
    ⟨200, .ok "torrent not known"⟩ ⟨404, .ok ""⟩ rfl rfl rfl rfl rfl

/-- C7: a 200 response whose body is not the sentinel and does not decode as
TorrentInfo makes get_torrent_info return InternalServerError. -/
theorem get_torrent_info_decode_failure (tracker_get : String → Except Unit Response)
    (decode : String → Option TorrentInfo) (info_hash : String) (r : Response) (body : String)
    (hg : tracker_get info_hash = .ok r) (hs : r.status = 200) (hb : r.text = .ok body)
    (hsent : body ≠ "torrent not known") (hd : decode body = none) :
    get_torrent_info tracker_get decode info_hash = .error .internalServerError := by
  simp [get_torrent_info, hg, hs, hb, hsent, hd]

def tGarbage : String → Except Unit Response := fun _ => .ok ⟨200, .ok "<html>oops</html>"⟩

/-- Witness for C7 at a concrete undecodable 200 response. -/
theorem get_torrent_info_decode_failure_witness :
    get_torrent_info tGarbage decodeNone "abc" = .error .internalServerError :=
  get_torrent_info_decode_failure tGarbage decodeNone "abc"
    ⟨200, .ok "<html>oops</html>"⟩ "<html>oops</html>" rfl rfl rfl (by decide) rfl

/-- C9: for any response whose status is not 404, get_torrent_info decides
the outcome by the body alone: the sentinel body gives TorrentNotFound, a
decodable body gives Ok even under an error status such as 500, any other
body gives InternalServerError, and two responses with the same body but
different non-404 statuses give the same result. -/
theorem get_torrent_info_status_disregarded (tracker_get : String → Except Unit Response)
    (decode : String → Option TorrentInfo) (info_hash : String) (r : Response)
    (hg : tracker_get info_hash = .ok r) (hs : r.status ≠ 404) :
    (r.text = .ok "torrent not known" →
      get_torrent_info tracker_get decode info_hash = .error .torrentNotFound) ∧
    (∀ body ti, r.text = .ok body → body ≠ "torrent not known" → decode body = some ti →
      get_torrent_info tracker_get decode info_hash = .ok ti) ∧
    (∀ body, r.text = .ok body → body ≠ "torrent not known" → decode body = none →
      get_torrent_info tracker_get decode info_hash = .error .internalServerError) ∧
    (∀ t2 : String → Except Unit Response, ∀ r2 : Response, t2 info_hash = .ok r2 →
      r2.status ≠ 404 → r2.text = r.text →
      get_torrent_info t2 decode info_hash = get_torrent_info tracker_get decode info_hash) := by
  refine ⟨?_, ?_, ?_, ?_⟩
  · intro hb
    simp [get_torrent_info, hg, hs, hb]
  · intro body ti hb hsent hd
    simp [get_torrent_info, hg, hs, hb, hsent, hd]
  · intro body hb hsent hd
    simp [get_torrent_info, hg, hs, hb, hsent, hd]
  · intro t2 r2 hg2 hs2 htext
    simp [get_torrent_info, hg, hs, hg2, hs2, htext]

def t500C9 : String → Except Unit Response := fun _ => .ok ⟨500, .ok "stats-json"⟩

def decodeC9 : String → Option TorrentInfo := fun b =>
  if b = "stats-json" then some ⟨"abc123", 5, 10, 2, []⟩ else none

/-- Witness for C9: a decodable body under HTTP 500 is still Ok. -/
theorem get_torrent_info_status_disregarded_witness :
    get_torrent_info t500C9 decodeC9 "abc123" = .ok ⟨"abc123", 5, 10, 2, []⟩ :=
  (get_torrent_info_status_disregarded t500C9 decodeC9 "abc123" ⟨500, .ok "stats-json"⟩
      rfl (by decide)).2.1 "stats-json" ⟨"abc123", 5, 10, 2, []⟩ rfl (by decide) rfl

/-- C8: against a tracker whose whitelist endpoint always answers 2xx, two
successive calls of whitelist_info_hash with the same info-hash both return
Ok: re-whitelisting an already whitelisted hash is not an error. -/
theorem whitelist_info_hash_idempotent (tracker_whitelist : String → Except Unit Response)
    (info_hash : String)
    (h2xx : ∀ h : String, ∃ r : Response, tracker_whitelist h = .ok r ∧ r.is_success = true) :
    (whitelist_info_hash tracker_whitelist info_hash,
      whitelist_info_hash tracker_whitelist info_hash) =
      ((.ok () : Except ServiceError Unit), (.ok () : Except ServiceError Unit)) := by
  obtain ⟨r, hr, hs⟩ := h2xx info_hash
  simp [whitelist_info_hash, hr, hs]

def tAlways200 : String → Except Unit Response := fun _ => .ok ⟨200, .ok ""⟩

/-- Witness for C8 at a concrete always-2xx tracker. -/
theorem whitelist_info_hash_idempotent_witness :
    (whitelist_info_hash tAlways200 "deadbeef", whitelist_info_hash tAlways200 "deadbeef") =
      ((.ok () : Except ServiceError Unit), (.ok () : Except ServiceError Unit)) :=
  whitelist_info_hash_idempotent tAlways200 "deadbeef"
    (fun _ => ⟨⟨200, .ok ""⟩, rfl, rfl⟩)

def tDown : String → Except Unit Response := fun _ => .error ()

/-- C5 counterexample: a transport-level failure makes
remove_info_hash_from_whitelist return InternalServerError, not the
TrackerOffline the claim requires (unlike whitelist_info_hash, which does
return TrackerOffline on the same failure). -/
theorem remove_transport_failure_counterexample :
    remove_info_hash_from_whitelist tDown "abc" = .error .internalServerError ∧
    remove_info_hash_from_whitelist tDown "abc" ≠ .error .trackerOffline ∧
    whitelist_info_hash tDown "abc" = .error .trackerOffline := by
  refine ⟨rfl, ?_, rfl⟩
  intro h
  simp [remove_info_hash_from_whitelist, tDown] at h

/-- C5 amended: remove_info_hash_from_whitelist maps a transport-level
failure to InternalServerError, a reachable tracker answering non-2xx to
InternalServerError, and a 2xx answer to Ok. -/
theorem remove_info_hash_error_shape (tracker_remove : String → Except Unit Response)
    (info_hash : String) :
    (tracker_remove info_hash = .error () →
      remove_info_hash_from_whitelist tracker_remove info_hash = .error .internalServerError) ∧
    (∀ r : Response, tracker_remove info_hash = .ok r → r.is_success = false →
      remove_info_hash_from_whitelist tracker_remove info_hash = .error .internalServerError) ∧
    (∀ r : Response, tracker_remove info_hash = .ok r → r.is_success = true →
      remove_info_hash_from_whitelist tracker_remove info_hash = .ok ()) := by
  refine ⟨?_, ?_, ?_⟩
  · intro h
    simp [remove_info_hash_from_whitelist, h]
  · intro r hr hs
    simp [remove_info_hash_from_whitelist, hr, hs]
  · intro r hr hs
    simp [remove_info_hash_from_whitelist, hr, hs]

def t503 : String → Except Unit Response := fun _ => .ok ⟨503, .ok "busy"⟩

/-- Witness for the amended C5 shape at concrete trackers covering all three
arms. -/
theorem remove_info_hash_error_shape_witness :
    remove_info_hash_from_whitelist tDown "x" = .error .internalServerError ∧
    remove_info_hash_from_whitelist t503 "x" = .error .internalServerError ∧
    remove_info_hash_from_whitelist tAlways200 "x" = .ok () :=
  ⟨(remove_info_hash_error_shape tDown "x").1 rfl,
    (remove_info_hash_error_shape t503 "x").2.1 ⟨503, .ok "busy"⟩ rfl (by decide),
    (remove_info_hash_error_shape tAlways200 "x").2.2 ⟨200, .ok ""⟩ rfl (by decide)⟩

theorem import_pass_summary_eq (lookup : String → LookupOutcome) :
    ∀ (hashes : List String) (db : String → Option TorrentStats),
      (import_pass lookup hashes db).2 =
        ⟨hashes.length,
          hashes.countP (fun h => (lookup h).isFound),
          hashes.countP (fun h => decide (lookup h = .notFoundOnTracker)),
          hashes.countP (fun h => decide (lookup h = .failedLookup))⟩ := by
  intro hashes
  induction hashes with
  | nil => intro db; rfl
  | cons h rest ih =>
      intro db
      cases hl : lookup h <;>
        simp [import_pass, hl, ih, List.countP_cons, LookupOutcome.isFound]

theorem isFound_found (s l c : Int) : (LookupOutcome.found s l c).isFound = true := rfl

theorem isFound_notFound : LookupOutcome.notFoundOnTracker.isFound = false := rfl

theorem isFound_failed : LookupOutcome.failedLookup.isFound = false := rfl

theorem lookup_count_partition (lookup : String → LookupOutcome) :
    ∀ hashes : List String,
      hashes.countP (fun h => (lookup h).isFound) +
        hashes.countP (fun h => decide (lookup h = .notFoundOnTracker)) +
        hashes.countP (fun h => decide (lookup h = .failedLookup)) = hashes.length := by
  intro hashes
  induction hashes with
  | nil => rfl
  | cons h rest ih =>
      cases hl : lookup h <;>
        simp [List.countP_cons, hl, isFound_found, isFound_notFound, isFound_failed] <;>
        omega

theorem import_pass_db_unchanged (lookup : String → LookupOutcome) (x : String)
    (hx : lookup x = .notFoundOnTracker ∨ lookup x = .failedLookup) :
    ∀ (hashes : List String) (db : String → Option TorrentStats),
      (import_pass lookup hashes db).1 x = db x := by
  intro hashes
  induction hashes with
  | nil => intro db; rfl
  | cons h rest ih =>
      intro db
      cases hl : lookup h with
      | notFoundOnTracker => simpa [import_pass, hl] using ih db
      | failedLookup => simpa [import_pass, hl] using ih db
      | found s l c =>
          have hne : x ≠ h := by
            intro he
            rw [he, hl] at hx
            rcases hx with hx | hx <;> exact LookupOutcome.noConfusion hx
          simp [import_pass, hl, ih, hne]

theorem import_pass_db_not_mem (lookup : String → LookupOutcome) (x : String) :
    ∀ (hashes : List String) (db : String → Option TorrentStats), x ∉ hashes →
      (import_pass lookup hashes db).1 x = db x := by
  intro hashes
  induction hashes with
  | nil => intro db _; rfl
  | cons h rest ih =>
      intro db hmem
      have hne : x ≠ h := fun he => hmem (he ▸ List.mem_cons_self h rest)
      have hrest : x ∉ rest := fun hr => hmem (List.mem_cons_of_mem h hr)
      cases hl : lookup h <;> simp [import_pass, hl, ih _ hrest, hne]

theorem import_pass_db_updated (lookup : String → LookupOutcome) (x : String)
    (s l c : Int) (hx : lookup x = .found s l c) :
    ∀ (hashes : List String) (db : String → Option TorrentStats), x ∈ hashes →
      (import_pass lookup hashes db).1 x = some ⟨s, l, c⟩ := by
  intro hashes
  induction hashes with
  | nil => intro db hmem; cases hmem
  | cons h rest ih =>
      intro db hmem
      by_cases hxr : x ∈ rest
      · cases hl : lookup h <;> simp [import_pass, hl] <;> exact ih _ hxr
      · have hxh : x = h := by
          rcases List.mem_cons.mp hmem with h1 | h1
          · exact h1
          · exact absurd h1 hxr
        subst hxh
        simp [import_pass, hx]
        rw [import_pass_db_not_mem lookup x rest _ hxr]
        simp

/-- C6: one import pass attempts every torrent of the catalog, counts one
failure per failing lookup, one skip per not-found lookup, and one update for
each of the rest; it writes the fresh counts of every torrent whose lookup
succeeded and leaves the stored counts of failed and not-found torrents
unmodified — no single-item error aborts the run. -/
theorem import_pass_isolation (lookup : String → LookupOutcome) (hashes : List String)
    (db : String → Option TorrentStats) :
    (import_pass lookup hashes db).2.attempted = hashes.length ∧
    (import_pass lookup hashes db).2.failed =
      hashes.countP (fun h => decide (lookup h = .failedLookup)) ∧
    (import_pass lookup hashes db).2.skipped =
      hashes.countP (fun h => decide (lookup h = .notFoundOnTracker)) ∧
    (import_pass lookup hashes db).2.updated =
      hashes.countP (fun h => (lookup h).isFound) ∧
    (import_pass lookup hashes db).2.attempted =
      (import_pass lookup hashes db).2.updated + (import_pass lookup hashes db).2.skipped +
        (import_pass lookup hashes db).2.failed ∧
    (∀ x s l c, lookup x = .found s l c → x ∈ hashes →
      (import_pass lookup hashes db).1 x = some ⟨s, l, c⟩) ∧
    (∀ x, lookup x = .notFoundOnTracker ∨ lookup x = .failedLookup →
      (import_pass lookup hashes db).1 x = db x) := by
  have hsum := import_pass_summary_eq lookup hashes db
  refine ⟨?_, ?_, ?_, ?_, ?_, ?_, ?_⟩
  · rw [hsum]
  · rw [hsum]
  · rw [hsum]
  · rw [hsum]
  · rw [hsum]
    exact (lookup_count_partition lookup hashes).symm
  · intro x s l c hx hmem
    exact import_pass_db_updated lookup x s l c hx hashes db hmem
  · intro x hx
    exact import_pass_db_unchanged lookup x hx hashes db

def lookupC6 : String → LookupOutcome := fun h =>
  if h = "2" ∨ h = "5" then .failedLookup
  else if h = "3" then .notFoundOnTracker
  else .found 5 2 10

def hashesC6 : List String := ["1", "2", "3", "4", "5", "6"]

def dbC6 : String → Option TorrentStats := fun _ => none

/-- Witness for C6 at the spec's own example: a catalog of 6 where torrents
2 and 5 fail and torrent 3 is not found. -/
theorem import_pass_isolation_witness :
    (import_pass lookupC6 hashesC6 dbC6).1 "4" = some ⟨5, 2, 10⟩ ∧
    (import_pass lookupC6 hashesC6 dbC6).1 "2" = dbC6 "2" ∧
    (import_pass lookupC6 hashesC6 dbC6).1 "3" = dbC6 "3" :=
  ⟨(import_pass_isolation lookupC6 hashesC6 dbC6).2.2.2.2.2.1 "4" 5 2 10 (by decide) (by decide),
    (import_pass_isolation lookupC6 hashesC6 dbC6).2.2.2.2.2.2 "2" (Or.inr (by decide)),
    (import_pass_isolation lookupC6 hashesC6 dbC6).2.2.2.2.2.2 "3" (Or.inl (by decide))⟩

/-- C10: in any state reachable during an import pass with concurrency limit
K over a catalog of N > K torrents, at most K tracker lookups are in
flight. -/
theorem importer_inflight_bounded (K N : Nat) (st : ImporterState)
    (_hNK : K < N) (hr : ImporterReachable K N st) : st.inflight ≤ K := by
  induction hr with
  | init => exact Nat.zero_le K
  | step hprev hstep ih =>
      cases hstep with
      | start hp hf => exact hf
      | finish hf => simp only [ImporterState.inflight] at ih ⊢; omega

/-- Witness for C10: with K = 2 and N = 5, the state after starting one
lookup is reachable and respects the bound. -/
theorem importer_inflight_bounded_witness :
    (ImporterState.mk 4 1 0).inflight ≤ 2 :=
  importer_inflight_bounded 2 5 ⟨4, 1, 0⟩ (by decide)
    (.step .init (.start (by decide) (by decide)))

end Torrust
